import Mathlib

/-!
Verification of the authentication session manager of the `ang-teslo-shop`
storefront (`src/app/auth/services/auth.service.ts`), together with the
error-kind detection of the register page
(`src/app/auth/pages/register-page/register-page.component.ts`).

The service is embedded shallowly: the Angular signals `_authStatus`,
`_user`, `_token`, the `localStorage` slot `token`, and the private
`authCache` record form one explicit state record `AuthState`; `Date.now()`
becomes an explicit `now : Int` argument (instants in milliseconds);
every operation is a pure function from state (and clock) to state plus an
outcome.  A JWT string is modelled by its decoded payload: `atob` and
`JSON.parse` are platform functions outside the repository, so a token is
represented by the optional numeric `exp` claim the inspector reads from it
(`none` models both a missing claim and an undecodable token).

Network calls are not performed; `checkStatus` is split into its
synchronous phase `checkStatusSync`, which either returns an immediate
verdict or reports that it issued the HTTP request (`CheckOutcome.network`),
and the response continuation `checkStatusResponse` that runs when the
backend answers (`some resp`) or errors (`none`).
-/

namespace TesloShop

set_option maxRecDepth 16000

/-- `CACHE_DURATION = 5 * 60 * 1000` — five minutes in milliseconds. -/
def CACHE_DURATION : Int := 5 * 60 * 1000

/-- `TOKEN_REFRESH_THRESHOLD = 10 * 60 * 1000` — ten minutes in milliseconds. -/
def TOKEN_REFRESH_THRESHOLD : Int := 10 * 60 * 1000

/-- Modelled from the spec: the `User` interface
(`@auth/interfaces/user.interface`) is not among the provided sources; the
spec describes it as a record with an id, roles (strings) and profile
fields.  No claim inspects its contents, only its presence. -/
structure User where
  id : String
  email : String
  fullName : String
  roles : List String
deriving DecidableEq, Repr

/-- A bearer token, represented by its decoded payload: `expClaim` is the
numeric `exp` claim (seconds since epoch) of the JWT body, `none` when the
token is malformed or carries no `exp`. -/
structure AuthToken where
  expClaim : Option Int
deriving DecidableEq, Repr

/-- `AuthResponse` — shape `{ token, user }` returned by the backend on
login, register and check-status. -/
structure AuthResponse where
  token : AuthToken
  user : User
deriving DecidableEq, Repr

/-- `AuthResult` — the `{ success, message }` record `login`/`register`
resolve to. -/
structure AuthResult where
  success : Bool
  message : String
deriving DecidableEq, Repr

/-- `type AuthStatus = 'checking' | 'authenticated' | 'not-authenticated'`. -/
inductive AuthStatus where
  | checking
  | authenticated
  | notAuthenticated
deriving DecidableEq, Repr

/-- `interface AuthCache` of the service: validity flag, last-checked
instant (`0` plays the role of "never", the constructor's initial value),
and the optional token-expiration instant in milliseconds. -/
structure AuthCache where
  isValid : Bool
  lastChecked : Int
  tokenExpiration : Option Int
deriving DecidableEq, Repr

/-- The whole mutable state of the service: the three signals, the
persisted `localStorage` entry `token`, and the cache record. -/
structure AuthState where
  authStatus : AuthStatus
  user : Option User
  token : Option AuthToken
  storedToken : Option AuthToken
  cache : AuthCache
deriving DecidableEq, Repr

/-- JavaScript truthiness of the cached `tokenExpiration`: the guards
`if (!this.authCache.tokenExpiration)` treat both `null` and `0` as
absent. -/
def expTruthy (e : Option Int) : Option Int :=
  match e with
  | none => none
  | some v => if v = 0 then none else some v

/-- `extractTokenExpiration`: reads `payload.exp` (guarded by JS
truthiness, so `exp = 0` yields `null`) and converts seconds to
milliseconds.  Undecodable tokens fall into the `catch` and yield
`null`. -/
def extractTokenExpiration (t : AuthToken) : Option Int :=
  match t.expClaim with
  | none => none
  | some e => if e = 0 then none else some (e * 1000)

/-- `isTokenExpiredLocally`: false when no (truthy) expiration is cached,
otherwise `Date.now() >= tokenExpiration`. -/
def isTokenExpiredLocally (c : AuthCache) (now : Int) : Bool :=
  match expTruthy c.tokenExpiration with
  | none => false
  | some e => decide (e ≤ now)

/-- `isTokenNearExpiration`: false when no (truthy) expiration is cached,
otherwise `tokenExpiration - Date.now() <= TOKEN_REFRESH_THRESHOLD`. -/
def isTokenNearExpiration (c : AuthCache) (now : Int) : Bool :=
  match expTruthy c.tokenExpiration with
  | none => false
  | some e => decide (e - now ≤ TOKEN_REFRESH_THRESHOLD)

/-- `isCacheValid`: marked valid, checked less than `CACHE_DURATION` ago,
and the token is not near expiration. -/
def isCacheValid (c : AuthCache) (now : Int) : Bool :=
  c.isValid && decide (now - c.lastChecked < CACHE_DURATION)
    && !(isTokenNearExpiration c now)

/-- `updateCache(isValid)`: stamps the flag and `lastChecked = Date.now()`,
leaving `tokenExpiration` untouched. -/
def updateCache (c : AuthCache) (isValid : Bool) (now : Int) : AuthCache :=
  { c with isValid := isValid, lastChecked := now }

/-- `invalidateCache()`: resets all three fields. -/
def invalidateCache (_c : AuthCache) : AuthCache :=
  { isValid := false, lastChecked := 0, tokenExpiration := none }

/-- The reset cache `{ isValid := false, lastChecked := 0 ("never"),
tokenExpiration := none }` — the constructor's initial value and the result
of every invalidation. -/
def resetCache : AuthCache :=
  { isValid := false, lastChecked := 0, tokenExpiration := none }

/-- The state at construction: `_authStatus = 'checking'`, no user, and
`_token` initialised from `localStorage.getItem('token')`; the cache starts
reset. -/
def initialState (stored : Option AuthToken) : AuthState :=
  { authStatus := .checking
    user := none
    token := stored
    storedToken := stored
    cache := resetCache }

/-- The computed `authStatus` signal: `'checking'` while the raw status is
checking, otherwise `'authenticated'` iff a user is set. -/
def authStatusComputed (s : AuthState) : AuthStatus :=
  if s.authStatus = .checking then .checking
  else match s.user with
    | some _ => .authenticated
    | none => .notAuthenticated

/-- `logout()`: clears user, token and status, removes the persisted token
and invalidates the cache. -/
def logout (s : AuthState) : AuthState :=
  { s with
    user := none
    token := none
    authStatus := .notAuthenticated
    storedToken := none
    cache := invalidateCache s.cache }

/-- `handleAuthSuccess({token, user})`: installs user/status/token, persists
the token and stores its extracted expiration in the cache; returns
`true`. -/
def handleAuthSuccess (s : AuthState) (resp : AuthResponse) :
    AuthState × Bool :=
  ({ s with
      user := some resp.user
      authStatus := .authenticated
      token := some resp.token
      storedToken := some resp.token
      cache := { s.cache with
                  tokenExpiration := extractTokenExpiration resp.token } },
    true)

/-- `handleAuthError`: `logout()` then `invalidateCache()` (the verdict
`of(false)` is returned by the caller). -/
def handleAuthError (s : AuthState) : AuthState :=
  { logout s with cache := invalidateCache (logout s).cache }

/-- Which branch of `checkStatus()` ran synchronously: missing persisted
token, cache hit, local-expiry short circuit, or an issued network
request. -/
inductive CheckOutcome where
  | noToken
  | cacheHit (verdict : Bool)
  | expiredLocally
  | network
deriving DecidableEq, Repr

/-- Number of HTTP requests the synchronous phase issued. -/
def CheckOutcome.networkCalls : CheckOutcome → Nat
  | .network => 1
  | _ => 0

/-- The verdict `of(...)` returned without touching the network, if any. -/
def CheckOutcome.immediateResult : CheckOutcome → Option Bool
  | .noToken => some false
  | .cacheHit b => some b
  | .expiredLocally => some false
  | .network => none

/-- The synchronous phase of `checkStatus()`: read the persisted token; on
absence, logout + invalidate and return false; on a valid cache, return the
cached flag; on local expiry, logout + invalidate and return false;
otherwise issue the `GET /auth/check-status` request. -/
def checkStatusSync (s : AuthState) (now : Int) : AuthState × CheckOutcome :=
  match s.storedToken with
  | none =>
      let s1 := logout s
      ({ s1 with cache := invalidateCache s1.cache }, .noToken)
  | some _ =>
      if isCacheValid s.cache now then
        (s, .cacheHit s.cache.isValid)
      else if isTokenExpiredLocally s.cache now then
        let s1 := logout s
        ({ s1 with cache := invalidateCache s1.cache }, .expiredLocally)
      else
        (s, .network)

/-- The continuation of `checkStatus()` once the network answers:
`map` branch on `some resp` (`handleAuthSuccess` then `updateCache(true)`),
`catchError` branch on `none` (`handleAuthError` then
`updateCache(false)`), each returning its verdict. -/
def checkStatusResponse (s : AuthState) (now : Int)
    (resp : Option AuthResponse) : AuthState × Bool :=
  match resp with
  | some r =>
      let p := handleAuthSuccess s r
      ({ p.1 with cache := updateCache p.1.cache p.2 now }, p.2)
  | none =>
      let s1 := handleAuthError s
      ({ s1 with cache := updateCache s1.cache false now }, false)

/-- `forceAuthCheck()`: `invalidateCache()` then the full `checkStatus()`
protocol (synchronous phase). -/
def forceAuthCheck (s : AuthState) (now : Int) : AuthState × CheckOutcome :=
  checkStatusSync { s with cache := invalidateCache s.cache } now

/-- One tick of the `timer(0, 60000)` subscription in
`setupTokenAutoRefresh`: when the raw status signal is `'authenticated'`
and the token is near expiration, invalidate the cache and subscribe a
fresh `checkStatus()` (its verdict is discarded); otherwise do nothing.
The second component counts how many `checkStatus()` runs the tick
triggered. -/
def schedulerTick (s : AuthState) (now : Int) : AuthState × Nat :=
  if s.authStatus = .authenticated && isTokenNearExpiration s.cache now then
    let s1 := { s with cache := invalidateCache s.cache }
    ((checkStatusSync s1 now).1, 1)
  else
    (s, 0)

/-- The `map` branch of a successful `login`/`register`:
`handleAuthSuccess(resp)` then `updateCache(true)`. -/
def handleLoginRegisterSuccess (s : AuthState) (resp : AuthResponse)
    (now : Int) : AuthState :=
  let p := handleAuthSuccess s resp
  { p.1 with cache := updateCache p.1.cache true now }

/-- State effect of `handleLoginError`: `logout()` then `invalidateCache()`
(the message computation, lines 282-365 of the service, touches no state
and is elided here because no claim reads the login message). -/
def handleLoginErrorState (s : AuthState) : AuthState :=
  { logout s with cache := invalidateCache (logout s).cache }

/-- State effect of `handleRegisterError`: `logout()` then
`invalidateCache()`; the returned message is `registerErrorResult`
below. -/
def handleRegisterErrorState (s : AuthState) : AuthState :=
  { logout s with cache := invalidateCache (logout s).cache }

/-!
String machinery for the error translator.  JavaScript
`String.prototype.replace` with a global regex is modelled by a single
left-to-right scan: at each position the specific pattern either matches —
consuming its characters and emitting the replacement — or the scan moves
one character on.  Each of the service's patterns gets its own matcher.
-/

/-- The backtick character (the `Path` regex delimiter). -/
def backtickChar : Char := Char.ofNat 96

/-- One global left-to-right replacement scan.  `f` tries to match the
pattern at the head of its argument and, on success, returns the
replacement text and the unconsumed rest.  The fuel argument starts at the
list length; every step consumes at least one character, so it never runs
out. -/
def scanReplAux (f : List Char → Option (List Char × List Char)) :
    Nat → List Char → List Char
  | _, [] => []
  | 0, l => l
  | n + 1, c :: rest =>
      match f (c :: rest) with
      | some (rep, rest2) => rep ++ scanReplAux f n rest2
      | none => c :: scanReplAux f n rest

/-- Global replacement over a character list. -/
def scanRepl (f : List Char → Option (List Char × List Char))
    (l : List Char) : List Char :=
  scanReplAux f l.length l

/-- Match a literal pattern at the head, returning the rest. -/
def matchLit (pat l : List Char) : Option (List Char) :=
  if pat.isPrefixOf l then some (l.drop pat.length) else none

/-- Match a literal pattern case-insensitively (the pattern is given in
lowercase), as the `gi`-flagged regexes do. -/
def matchCI (pat l : List Char) : Option (List Char) :=
  if (l.take pat.length).map Char.toLower = pat then some (l.drop pat.length)
  else none

/-- A case-sensitive fixed-text rewrite rule. -/
def litRule (pat repl : String) (l : List Char) :
    Option (List Char × List Char) :=
  (matchLit pat.toList l).map (fun r => (repl.toList, r))

/-- A case-insensitive fixed-text rewrite rule (pattern in lowercase). -/
def ciRule (pat repl : String) (l : List Char) :
    Option (List Char × List Char) :=
  (matchCI pat.toList l).map (fun r => (repl.toList, r))

/-- The rule for `Key \([^)]+\)=\([^)]+\)` → `"This email address"`. -/
def keyRule (l : List Char) : Option (List Char × List Char) := do
  let r1 ← matchLit "Key (".toList l
  let inner1 := r1.takeWhile (fun c => c ≠ ')')
  if inner1.isEmpty then none else do
  let r2 ← matchLit ")=(".toList (r1.drop inner1.length)
  let inner2 := r2.takeWhile (fun c => c ≠ ')')
  if inner2.isEmpty then none else do
  let r3 ← matchLit ")".toList (r2.drop inner2.length)
  pure ("This email address".toList, r3)

/-- The rule for `already exists\.?` → `"is already registered."`: the
trailing dot, when present, is consumed with the match. -/
def alreadyExistsRule (l : List Char) : Option (List Char × List Char) := do
  let r ← matchLit "already exists".toList l
  let r2 := match r with
    | '.' :: t => t
    | _ => r
  pure ("is already registered.".toList, r2)

/-- The rule for `E11000[^.]*\.` → `"This email address is already
registered."`; without a closing dot there is no match. -/
def e11000Rule (l : List Char) : Option (List Char × List Char) := do
  let r ← matchLit "E11000".toList l
  let mid := r.takeWhile (fun c => c ≠ '.')
  match r.drop mid.length with
  | '.' :: t => pure ("This email address is already registered.".toList, t)
  | _ => none

/-- The rule for ``Path `([^`]+)` is required`` → `"$1 is required."`. -/
def pathRequiredRule (l : List Char) : Option (List Char × List Char) := do
  let r ← matchLit "Path `".toList l
  let cap := r.takeWhile (fun c => c ≠ backtickChar)
  if cap.isEmpty then none else do
  let r2 ← matchLit "` is required".toList (r.drop cap.length)
  pure (cap ++ " is required.".toList, r2)

/-- The ordered substitution passes of `cleanErrorMessage`, one scan per
`.replace` call of the source, in source order. -/
def cleanPasses (l : List Char) : List Char :=
  let l := scanRepl keyRule l
  let l := scanRepl alreadyExistsRule l
  let l := scanRepl
    (ciRule "duplicate key error"
      "This email address is already registered.") l
  let l := scanRepl e11000Rule l
  let l := scanRepl (ciRule "validation failed" "Please check your information.") l
  let l := scanRepl (ciRule "validationerror:" "") l
  let l := scanRepl pathRequiredRule l
  let l := scanRepl (ciRule "is not a valid email" "Please enter a valid email address.") l
  let l := scanRepl
    (ciRule "password too short"
      "Password must be at least 6 characters long.") l
  let l := scanRepl (ciRule "invalid email format" "Please enter a valid email address.") l
  let l := scanRepl (ciRule "user not found" "No account found with this email address.") l
  let l := scanRepl (ciRule "unauthorized access" "Invalid credentials.") l
  let l := scanRepl
    (ciRule "internal server error"
      "We\x27re experiencing technical difficulties.") l
  let l := scanRepl
    (ciRule "network error"
      "Unable to connect. Please check your internet connection.") l
  l

/-- `String.prototype.trim`: strip whitespace from both ends. -/
def trimList (l : List Char) : List Char :=
  ((l.dropWhile Char.isWhitespace).reverse.dropWhile Char.isWhitespace).reverse

/-- `endsWith('.') || endsWith('!') || endsWith('?')` — the three suffixes
are single characters, so only the last character matters. -/
def endsInTerminal (l : List Char) : Bool :=
  match l.reverse with
  | [] => false
  | c :: _ => c = '.' || c = '!' || c = '?'

/-- `cleanErrorMessage`: the substitution passes, then `trim`, capitalise
the first character, and append a period unless the text already ends in
terminal punctuation. -/
def cleanErrorMessage (message : String) : String :=
  let cleanMessage := trimList (cleanPasses message.toList)
  let capitalized :=
    match cleanMessage with
    | [] => []
    | c :: r => Char.toUpper c :: r
  String.mk
    (if endsInTerminal capitalized then capitalized else capitalized ++ ['.'])

/-- `haystack.includes(needle)` on JavaScript strings. -/
def containsSub (pat l : List Char) : Bool :=
  l.tails.any (fun t => pat.isPrefixOf t)

/-- `s.includes(pat)`. -/
def includesStr (s pat : String) : Bool :=
  containsSub pat.toList s.toList

/-- `s.toLowerCase()`. -/
def toLowerStr (s : String) : String :=
  String.mk (s.toList.map Char.toLower)

/-- The `error` body of an `HttpErrorResponse`: the backend payload may
carry a `message` field and an `error` field (the latter is written
`errorText` here because the record is itself the `error` body). -/
structure ErrorPayload where
  message : Option String
  errorText : Option String
deriving DecidableEq, Repr

/-- The parts of Angular's `HttpErrorResponse` the service reads: the
numeric status and the optional decoded body. -/
structure HttpErrorResponse where
  status : Int
  error : Option ErrorPayload
deriving DecidableEq, Repr

/-- JS truthiness of an optional string: `undefined` and `""` are falsy. -/
def truthyStr (s : Option String) : Option String :=
  match s with
  | none => none
  | some t => if t = "" then none else some t

/-- `a || b` on JS strings: `b` when `a` is empty. -/
def orElseStr (a b : String) : String :=
  if a = "" then b else a

/-- The message selected by `handleRegisterError` before the final
cleaning pass, translated branch by branch from lines 204-273 of the
service. -/
def registerErrorMessage (e : HttpErrorResponse) : String :=
  let emailExistsMsg :=
    "This email is already registered. Please try signing in instead or use a different email address."
  if e.status = 400 then
    match truthyStr (e.error.bind (fun p => p.message)) with
    | some m =>
        let em := toLowerStr m
        let cleaned := cleanErrorMessage m
        if includesStr em "email" &&
            (includesStr em "already exists" || includesStr em "duplicate" ||
              (includesStr em "key" && includesStr em "exists")) then
          emailExistsMsg
        else if includesStr em "validation" || includesStr em "invalid" then
          if includesStr em "email" then
            "Please enter a valid email address."
          else if includesStr em "password" then
            "Password must be at least 6 characters long."
          else if includesStr em "fullname" || includesStr em "name" then
            "Please enter your full name."
          else
            orElseStr cleaned "Please check that all fields are filled correctly."
        else
          orElseStr cleaned "Please verify your information and try again."
    | none =>
        match e.error.bind (fun p => p.errorText) with
        | some er =>
            if includesStr er "duplicate" || includesStr er "already exists"
                || includesStr er "E11000" then
              emailExistsMsg
            else
              "Please check that all required fields are filled correctly."
        | none =>
            "Please check that all required fields are filled correctly."
  else if e.status = 409 then
    emailExistsMsg
  else if e.status = 422 then
    "Some information appears to be invalid. Please review your details and try again."
  else if 500 ≤ e.status then
    "We\x27re experiencing technical difficulties. Please try again in a few moments."
  else if e.status = 0 then
    "Unable to connect to our servers. Please check your internet connection and try again."
  else
    "We couldn\x27t create your account. Please try again."

/-- The `AuthResult` returned by `handleRegisterError`: success `false` and
the selected message passed once more through `cleanErrorMessage`. -/
def registerErrorResult (e : HttpErrorResponse) : AuthResult :=
  { success := false, message := cleanErrorMessage (registerErrorMessage e) }

/-- `handleRegisterError` in full: state effect plus returned result. -/
def handleRegisterError (s : AuthState) (e : HttpErrorResponse) :
    AuthState × AuthResult :=
  (handleRegisterErrorState s, registerErrorResult e)

/-- The error kinds the register page distinguishes
(`errorType` signal of `RegisterPageComponent`). -/
inductive RegisterErrorKind where
  | general
  | emailExists
  | validation
deriving DecidableEq, Repr

/-- The automatic kind detection of `RegisterPageComponent.showError` when
no explicit type is passed (as on a failed `register` result). -/
def detectRegisterErrorKind (message : String) : RegisterErrorKind :=
  let m := toLowerStr message
  if includesStr m "email" &&
      (includesStr m "already" || includesStr m "registered"
        || includesStr m "exists") then
    .emailExists
  else if includesStr m "validation" || includesStr m "check"
      || includesStr m "filled" || includesStr m "review"
      || includesStr m "invalid" then
    .validation
  else
    .general

/-!
Concrete fixtures used to instantiate the theorems, and the session
invariant the spec states for the three signals.
-/

/-- A concrete user record. -/
def userA : User :=
  { id := "u1", email := "a@b.com", fullName := "Ada", roles := ["admin"] }

/-- A token whose `exp` claim is 2 seconds after the epoch (expiration
instant 2000 ms). -/
def tokB : AuthToken := { expClaim := some 2 }

/-- A token expiring far in the future (expiration instant 10^9 ms). -/
def tokLong : AuthToken := { expClaim := some 1000000 }

/-- A state fresh off a successful check at instant 0 with a long-lived
token. -/
def c1state : AuthState :=
  { authStatus := .authenticated
    user := some userA
    token := some tokLong
    storedToken := some tokLong
    cache := { isValid := true, lastChecked := 0,
               tokenExpiration := some 1000000000 } }

/-- A state holding the short-lived token `tokB` with its expiration
(2000 ms) cached. -/
def c2state : AuthState :=
  { authStatus := .authenticated
    user := some userA
    token := some tokB
    storedToken := some tokB
    cache := { isValid := true, lastChecked := 0,
               tokenExpiration := some 2000 } }

/-- The failed register response of the duplicate-email scenario: status
400, backend message `Key (email)=(a@b.com) already exists.`. -/
def c6input : HttpErrorResponse :=
  { status := 400
    error := some { message := some "Key (email)=(a@b.com) already exists."
                    errorText := none } }

/-- The invariant stated by the spec for the session signals: the user is
present iff the token signal is present iff the computed status is
`authenticated`. -/
def sessionInvariant (s : AuthState) : Prop :=
  (s.user.isSome = true ↔ s.token.isSome = true) ∧
  (s.user.isSome = true ↔ authStatusComputed s = .authenticated)

instance (s : AuthState) : Decidable (sessionInvariant s) := by
  unfold sessionInvariant
  infer_instance

/-!
Helper lemmas shared by several claim theorems.
-/

/-- A token that is not near expiration is in particular not locally
expired: the refresh threshold is positive, so an expired token (time to
expiry at most 0) is always within it. -/
theorem notExpired_of_notNear (c : AuthCache) (now : Int)
    (h : isTokenNearExpiration c now = false) :
    isTokenExpiredLocally c now = false := by
  unfold isTokenNearExpiration at h
  unfold isTokenExpiredLocally
  cases hE : expTruthy c.tokenExpiration with
  | none => rfl
  | some e =>
      rw [hE] at h
      simp only [decide_eq_false_iff_not, TOKEN_REFRESH_THRESHOLD] at h
      simp only [decide_eq_false_iff_not]
      omega

/-- Every invalidation produces the literal reset cache. -/
theorem invalidateCache_eq_reset (c : AuthCache) :
    invalidateCache c = resetCache := rfl

/-- On the reset cache the three cache predicates are all false. -/
theorem resetCache_predicates (now : Int) :
    isCacheValid resetCache now = false ∧
    isTokenExpiredLocally resetCache now = false ∧
    isTokenNearExpiration resetCache now = false :=
  ⟨rfl, rfl, rfl⟩

/-- A state whose cache is reset never takes the cache-hit or local-expiry
branch: `checkStatusSync` leaves its cache reset. -/
theorem checkStatusSync_reset_cache (s : AuthState) (now : Int)
    (h : s.cache = resetCache) :
    (checkStatusSync s now).1.cache = resetCache := by
  unfold checkStatusSync
  cases hS : s.storedToken with
  | none => rfl
  | some tok =>
      rw [h]
      simp only [isCacheValid, resetCache, isTokenNearExpiration,
        isTokenExpiredLocally, expTruthy, Bool.false_and, Bool.and_self_left]
      exact h

/-- C1: with a persisted token, a prior successful check less than
`CACHE_DURATION` ago (`isValid = true`, `lastChecked` = its instant) and a
token not within the refresh threshold, a further `checkStatus()` is a
cache hit returning the prior verdict `true` with zero network calls; and
once `CACHE_DURATION` has elapsed (the token still not near expiry), the
next call issues exactly one network call. -/
theorem checkStatus_cache_semantics (s : AuthState) (tok : AuthToken)
    (now now2 : Int) (hTok : s.storedToken = some tok) :
    (s.cache.isValid = true →
      now - s.cache.lastChecked < CACHE_DURATION →
      isTokenNearExpiration s.cache now = false →
      checkStatusSync s now = (s, .cacheHit true) ∧
        (checkStatusSync s now).2.networkCalls = 0) ∧
    (CACHE_DURATION ≤ now2 - s.cache.lastChecked →
      isTokenNearExpiration s.cache now2 = false →
      (checkStatusSync s now2).2 = .network ∧
        (checkStatusSync s now2).2.networkCalls = 1) := by
  constructor
  · intro hValid hFresh hNear
    have hCV : isCacheValid s.cache now = true := by
      unfold isCacheValid
      rw [hValid, hNear, decide_eq_true hFresh]
      rfl
    have : checkStatusSync s now = (s, .cacheHit true) := by
      unfold checkStatusSync
      rw [hTok, hCV, hValid]
      simp
    exact ⟨this, by rw [this]; rfl⟩
  · intro hStale hNear
    have hCV : isCacheValid s.cache now2 = false := by
      unfold isCacheValid
      rw [hNear]
      have : decide (now2 - s.cache.lastChecked < CACHE_DURATION) = false := by
        simp only [decide_eq_false_iff_not]
        omega
      rw [this]
      simp
    have hExp : isTokenExpiredLocally s.cache now2 = false :=
      notExpired_of_notNear s.cache now2 hNear
    have : checkStatusSync s now2 = (s, .network) := by
      unfold checkStatusSync
      rw [hTok, hCV, hExp]
      simp
    exact ⟨by rw [this], by rw [this]; rfl⟩

/-- Witness for C1: the state `c1state` (successful check at instant 0,
token expiring at 10^9 ms) instantiates both halves, at `now = 1000`
(inside the cache window) and `now2 = 300000` (the window just
elapsed). -/
theorem checkStatus_cache_semantics_witness :
    checkStatusSync c1state 1000 = (c1state, .cacheHit true) ∧
    (checkStatusSync c1state 300000).2 = .network :=
  ⟨((checkStatus_cache_semantics c1state tokLong 1000 300000 (by decide)).1
      (by decide) (by decide) (by decide)).1,
    ((checkStatus_cache_semantics c1state tokLong 1000 300000 (by decide)).2
      (by decide) (by decide)).1⟩

/-- C2 counterexample: the local-expiry test reads the cached
`tokenExpiration`, which only `handleAuthSuccess` ever writes, so a fresh
process holding the persisted token `tokB` — whose decodable expiration
(2000 ms) is already past at instant 5000 — does not return false without
a network call: `checkStatus()` issues the network request. -/
theorem fresh_expired_token_still_network :
    extractTokenExpiration tokB = some 2000 ∧
    (checkStatusSync (initialState (some tokB)) 5000).2 = .network ∧
    (checkStatusSync (initialState (some tokB)) 5000).2.networkCalls = 1 := by
  decide

/-- C2 (amended): with a persisted token whose decodable expiration lies
in the past and is the one held in the cache (as a prior
`handleAuthSuccess` installs it), `checkStatus()` takes the local-expiry
branch: verdict `false`, zero network calls, and afterwards the session is
`not-authenticated` with user, token and persisted token cleared and the
cache reset. -/
theorem checkStatus_expired_locally (s : AuthState) (tok : AuthToken)
    (e now : Int) (hTok : s.storedToken = some tok)
    (hDec : extractTokenExpiration tok = some e)
    (hCache : s.cache.tokenExpiration = some e)
    (hPast : e < now) :
    (checkStatusSync s now).2 = .expiredLocally ∧
    (checkStatusSync s now).2.networkCalls = 0 ∧
    (checkStatusSync s now).2.immediateResult = some false ∧
    (checkStatusSync s now).1.user = none ∧
    (checkStatusSync s now).1.token = none ∧
    (checkStatusSync s now).1.authStatus = .notAuthenticated ∧
    (checkStatusSync s now).1.storedToken = none ∧
    (checkStatusSync s now).1.cache = resetCache := by
  have hNZ : e ≠ 0 := by
    unfold extractTokenExpiration at hDec
    cases hC : tok.expClaim with
    | none => rw [hC] at hDec; simp at hDec
    | some v =>
        rw [hC] at hDec
        by_cases hv : v = 0
        · simp [hv] at hDec
        · simp only [hv, if_false, Option.some.injEq] at hDec
          omega
  have hTr : expTruthy s.cache.tokenExpiration = some e := by
    rw [hCache]
    simp [expTruthy, hNZ]
  have hNear : isTokenNearExpiration s.cache now = true := by
    unfold isTokenNearExpiration
    rw [hTr]
    simp only [decide_eq_true_eq, TOKEN_REFRESH_THRESHOLD]
    omega
  have hCV : isCacheValid s.cache now = false := by
    unfold isCacheValid
    rw [hNear]
    simp
  have hExp : isTokenExpiredLocally s.cache now = true := by
    unfold isTokenExpiredLocally
    rw [hTr]
    simp only [decide_eq_true_eq]
    omega
  have hRun : checkStatusSync s now =
      ({ logout s with cache := invalidateCache (logout s).cache },
        .expiredLocally) := by
    unfold checkStatusSync
    rw [hTok, hCV, hExp]
    simp
  rw [hRun]
  exact ⟨rfl, rfl, rfl, rfl, rfl, rfl, rfl, rfl⟩

/-- Witness for C2: the state `c2state` caches the expiration 2000 ms of
its own token `tokB` and is checked at `now = 5000`. -/
theorem checkStatus_expired_locally_witness :
    (checkStatusSync c2state 5000).2 = .expiredLocally ∧
    (checkStatusSync c2state 5000).1.cache = resetCache := by
  have h := checkStatus_expired_locally c2state tokB 2000 5000
    (by decide) (by decide) (by decide) (by decide)
  exact ⟨h.1, h.2.2.2.2.2.2.2⟩

/-- C3: `forceAuthCheck()` first invalidates the cache, so with a
persisted, not-locally-expired token it never hits the cache and issues
exactly one network call, whatever the prior cache state. -/
theorem forceAuthCheck_network (s : AuthState) (tok : AuthToken) (now : Int)
    (hTok : s.storedToken = some tok)
    (_hNotExp : isTokenExpiredLocally s.cache now = false) :
    (forceAuthCheck s now).2 = .network ∧
    (forceAuthCheck s now).2.networkCalls = 1 := by
  have hRun : forceAuthCheck s now =
      ({ s with cache := invalidateCache s.cache }, .network) := by
    unfold forceAuthCheck checkStatusSync
    rw [show ({ s with cache := invalidateCache s.cache } : AuthState).storedToken
          = some tok from hTok]
    rfl
  rw [hRun]
  exact ⟨rfl, rfl⟩

/-- Witness for C3: `c1state` at instant 1000 (its token is far from
expiry). -/
theorem forceAuthCheck_network_witness :
    (forceAuthCheck c1state 1000).2 = .network :=
  (forceAuthCheck_network c1state tokLong 1000 (by decide) (by decide)).1

/-- C4 counterexample: a failed network status check at instant 1000 does
not leave the reset cache — `handleAuthError` resets it but the following
`updateCache(false)` stamps `lastChecked` with the time of the failed
check. -/
theorem failed_check_cache_not_reset :
    (checkStatusResponse c2state 1000 none).1.cache ≠ resetCache ∧
    (checkStatusResponse c2state 1000 none).1.cache =
      { isValid := false, lastChecked := 1000, tokenExpiration := none } := by
  decide

/-- C4 (amended): logout, login failure, register failure and explicit
invalidation reset the cache to `{false, 0, none}`; a failed network status
check leaves `{false, now, none}` — invalidated but stamped with the time
of the failed check; every successful check (status check, login, register)
marks the cache valid with `lastChecked` the time of the check. -/
theorem cache_lifecycle :
    (∀ s : AuthState, (logout s).cache = resetCache) ∧
    (∀ s : AuthState, (handleLoginErrorState s).cache = resetCache) ∧
    (∀ s : AuthState, (handleRegisterErrorState s).cache = resetCache) ∧
    (∀ c : AuthCache, invalidateCache c = resetCache) ∧
    (∀ (s : AuthState) (now : Int),
      (checkStatusResponse s now none).1.cache =
        { isValid := false, lastChecked := now, tokenExpiration := none }) ∧
    (∀ (s : AuthState) (now : Int) (r : AuthResponse),
      (checkStatusResponse s now (some r)).1.cache.isValid = true ∧
      (checkStatusResponse s now (some r)).1.cache.lastChecked = now) ∧
    (∀ (s : AuthState) (r : AuthResponse) (now : Int),
      (handleLoginRegisterSuccess s r now).cache.isValid = true ∧
      (handleLoginRegisterSuccess s r now).cache.lastChecked = now) := by
  refine ⟨fun s => rfl, fun s => rfl, fun s => rfl, fun c => rfl,
    fun s now => rfl, fun s now r => ⟨rfl, rfl⟩, fun s r now => ⟨rfl, rfl⟩⟩

/-- C5 counterexample: at construction with a persisted token, the token
signal is present while the user is absent (status `checking`), so the
user-token-status invariant fails in a reachable state. -/
theorem initial_state_breaks_invariant :
    ¬ sessionInvariant (initialState (some tokB)) := by
  decide

/-- C5 (amended): the user-token-status invariant holds at construction
with no persisted token and after every completed operation outcome —
successful login/register, logout, login/register failure, and both
outcomes of a network status check — and the synchronous phase of
`checkStatus` preserves it; it does not hold at construction with a
persisted token, where the token signal is populated before any user is
known. -/
theorem session_invariant_after_operations :
    sessionInvariant (initialState none) ∧
    (∀ (s : AuthState) (r : AuthResponse) (now : Int),
      sessionInvariant (handleLoginRegisterSuccess s r now)) ∧
    (∀ s : AuthState, sessionInvariant (logout s)) ∧
    (∀ s : AuthState, sessionInvariant (handleLoginErrorState s)) ∧
    (∀ s : AuthState, sessionInvariant (handleRegisterErrorState s)) ∧
    (∀ (s : AuthState) (now : Int) (resp : Option AuthResponse),
      sessionInvariant (checkStatusResponse s now resp).1) ∧
    (∀ (s : AuthState) (now : Int),
      sessionInvariant s → sessionInvariant (checkStatusSync s now).1) := by
  refine ⟨by decide, ?_, ?_, ?_, ?_, ?_, ?_⟩
  · intro s r now
    simp [sessionInvariant, handleLoginRegisterSuccess, handleAuthSuccess,
      updateCache, authStatusComputed]
  · intro s
    simp [sessionInvariant, logout, authStatusComputed]
  · intro s
    simp [sessionInvariant, handleLoginErrorState, logout, authStatusComputed]
  · intro s
    simp [sessionInvariant, handleRegisterErrorState, logout,
      authStatusComputed]
  · intro s now resp
    cases resp with
    | some r =>
        simp [sessionInvariant, checkStatusResponse, handleAuthSuccess,
          updateCache, authStatusComputed]
    | none =>
        simp [sessionInvariant, checkStatusResponse, handleAuthError, logout,
          updateCache, authStatusComputed]
  · intro s now h
    unfold checkStatusSync
    cases hS : s.storedToken with
    | none => simp [sessionInvariant, logout, authStatusComputed]
    | some tok =>
        by_cases hCV : isCacheValid s.cache now = true
        · simpa [hCV] using h
        · by_cases hExp : isTokenExpiredLocally s.cache now = true
          · simp only [hCV, hExp]
            simp [sessionInvariant, logout, authStatusComputed]
          · simp only [hCV, hExp]
            simpa using h

/-- Witness for C5 (amended): the preservation clause applied to the fresh
no-token state at instant 0. -/
theorem session_invariant_after_operations_witness :
    sessionInvariant (checkStatusSync (initialState none) 0).1 :=
  session_invariant_after_operations.2.2.2.2.2.2 (initialState none) 0
    (by decide)

/-- C6 counterexample: on a 400 register failure with backend message
`Key (email)=(a@b.com) already exists.`, the result message is not the
cleaned text `This email address is already registered.` — the duplicate-
email branch selects its own fixed sentence instead. -/
theorem register_duplicate_message_not_cleaned :
    (registerErrorResult c6input).message ≠
      "This email address is already registered." := by
  decide

/-- C6 (amended): on that failure, `cleanErrorMessage` applied to the raw
backend message does yield `This email address is already registered.`,
but the returned result carries the fixed duplicate-email sentence
`This email is already registered. Please try signing in instead or use a
different email address.` with `success = false`; the register page
classifies either message as the email-exists kind. -/
theorem register_duplicate_email_translation :
    cleanErrorMessage "Key (email)=(a@b.com) already exists." =
      "This email address is already registered." ∧
    (registerErrorResult c6input).success = false ∧
    (registerErrorResult c6input).message =
      "This email is already registered. Please try signing in instead or use a different email address." ∧
    detectRegisterErrorKind (registerErrorResult c6input).message =
      .emailExists ∧
    detectRegisterErrorKind "This email address is already registered." =
      .emailExists := by
  decide

/-- C7: `logout()` is idempotent — it is a constant map onto the fully
logged-out state (no user, no token, status not-authenticated, no
persisted token, reset cache), so a second call changes nothing. -/
theorem logout_idempotent :
    ∀ s : AuthState,
      logout (logout s) = logout s ∧
      logout s =
        { authStatus := .notAuthenticated, user := none, token := none,
          storedToken := none, cache := resetCache } :=
  fun _s => ⟨rfl, rfl⟩

/-- C8: on a scheduler tick, when the raw status is `authenticated` and
the cached token expiration is within the refresh threshold, the tick
invalidates the cache (the post-tick cache is reset) and triggers exactly
one `checkStatus()` run on the invalidated state, its verdict discarded;
in every other case the tick is a no-op. -/
theorem scheduler_tick_spec (s : AuthState) (now : Int) :
    (s.authStatus = .authenticated →
      isTokenNearExpiration s.cache now = true →
      (schedulerTick s now).2 = 1 ∧
      (schedulerTick s now).1 =
        (checkStatusSync { s with cache := invalidateCache s.cache } now).1 ∧
      (schedulerTick s now).1.cache = resetCache) ∧
    (s.authStatus ≠ .authenticated ∨
        isTokenNearExpiration s.cache now = false →
      schedulerTick s now = (s, 0)) := by
  constructor
  · intro hAuth hNear
    have hCond : (s.authStatus = AuthStatus.authenticated &&
        isTokenNearExpiration s.cache now) = true := by
      rw [hNear, decide_eq_true hAuth]
      rfl
    have hRun : schedulerTick s now =
        ((checkStatusSync { s with cache := invalidateCache s.cache } now).1,
          1) := by
      unfold schedulerTick
      rw [if_pos hCond]
    refine ⟨by rw [hRun], by rw [hRun], ?_⟩
    rw [hRun]
    exact checkStatusSync_reset_cache _ now rfl
  · intro h
    have hCond : (s.authStatus = AuthStatus.authenticated &&
        isTokenNearExpiration s.cache now) = false := by
      cases h with
      | inl hA => simp [hA]
      | inr hN => simp [hN]
    unfold schedulerTick
    rw [if_neg (by simp [hCond])]

/-- Witness for C8: `c2state` is authenticated with its token expiration
(2000 ms) within the threshold at instant 5000, so the tick fires; the
same state with the raw status `not-authenticated` makes the tick a
no-op. -/
theorem scheduler_tick_spec_witness :
    (schedulerTick c2state 5000).2 = 1 ∧
    (schedulerTick c2state 5000).1.cache = resetCache ∧
    schedulerTick { c2state with authStatus := .notAuthenticated } 5000 =
      ({ c2state with authStatus := .notAuthenticated }, 0) :=
  ⟨((scheduler_tick_spec c2state 5000).1 (by decide) (by decide)).1,
    ((scheduler_tick_spec c2state 5000).1 (by decide) (by decide)).2.2,
    (scheduler_tick_spec { c2state with authStatus := .notAuthenticated }
        5000).2 (Or.inl (by decide))⟩

/-- C9: whenever `checkStatus()` takes the cache-hit path (persisted token
present and `isCacheValid` true), the served verdict is the cached flag,
which cache usability forces to be `true`: a negative verdict is never
served from cache. -/
theorem cache_hit_verdict_true (s : AuthState) (tok : AuthToken) (now : Int)
    (hTok : s.storedToken = some tok)
    (hCV : isCacheValid s.cache now = true) :
    checkStatusSync s now = (s, .cacheHit true) ∧
    (checkStatusSync s now).2.immediateResult = some true := by
  have hValid : s.cache.isValid = true := by
    unfold isCacheValid at hCV
    exact (Bool.and_eq_true_iff.mp
      ((Bool.and_eq_true_iff.mp hCV).1)).1
  have hRun : checkStatusSync s now = (s, .cacheHit true) := by
    unfold checkStatusSync
    rw [hTok, hCV, hValid]
    simp
  exact ⟨hRun, by rw [hRun]; rfl⟩

/-- Witness for C9: `c1state` at instant 1000 satisfies the cache-hit
conditions. -/
theorem cache_hit_verdict_true_witness :
    checkStatusSync c1state 1000 = (c1state, .cacheHit true) :=
  (cache_hit_verdict_true c1state tokLong 1000 (by decide) (by decide)).1

/-- C10: every invalidation clears the stored token expiration, making
both the local-expiry and the near-expiry tests false; the expiration is
written only by `handleAuthSuccess` (from the response token) and is
otherwise preserved or cleared; hence `forceAuthCheck()` never exits
through the local-expiry short circuit, and in a fresh process a persisted
token — expired or not — always leads to a network call. -/
theorem token_expiration_lifecycle :
    (∀ (c : AuthCache) (now : Int),
      (invalidateCache c).tokenExpiration = none ∧
      isTokenExpiredLocally (invalidateCache c) now = false ∧
      isTokenNearExpiration (invalidateCache c) now = false) ∧
    (∀ s : AuthState, (logout s).cache.tokenExpiration = none) ∧
    (∀ (c : AuthCache) (b : Bool) (now : Int),
      (updateCache c b now).tokenExpiration = c.tokenExpiration) ∧
    (∀ (s : AuthState) (r : AuthResponse),
      (handleAuthSuccess s r).1.cache.tokenExpiration =
        extractTokenExpiration r.token) ∧
    (∀ (s : AuthState) (now : Int),
      (checkStatusSync s now).1.cache.tokenExpiration = none ∨
      (checkStatusSync s now).1.cache.tokenExpiration =
        s.cache.tokenExpiration) ∧
    (∀ (s : AuthState) (now : Int),
      (checkStatusResponse s now none).1.cache.tokenExpiration = none) ∧
    (∀ (s : AuthState) (now : Int),
      (forceAuthCheck s now).2 ≠ .expiredLocally) ∧
    (∀ (tok : AuthToken) (now : Int),
      (checkStatusSync (initialState (some tok)) now).2 = .network) := by
  refine ⟨fun c now => ⟨rfl, rfl, rfl⟩, fun s => rfl, fun c b now => rfl,
    fun s r => rfl, ?_, fun s now => rfl, ?_, fun tok now => rfl⟩
  · intro s now
    unfold checkStatusSync
    cases hS : s.storedToken with
    | none => exact Or.inl rfl
    | some tok =>
        by_cases hCV : isCacheValid s.cache now = true
        · simp only [hCV]
          exact Or.inr (by simp)
        · by_cases hExp : isTokenExpiredLocally s.cache now = true
          · simp only [hCV, hExp]
            exact Or.inl rfl
          · simp only [hCV, hExp]
            exact Or.inr (by simp)
  · intro s now
    unfold forceAuthCheck checkStatusSync
    cases hS : s.storedToken with
    | none => simp
    | some tok => simp [isCacheValid, invalidateCache, isTokenExpiredLocally,
        isTokenNearExpiration, expTruthy]

end TesloShop
